import Mathlib

/-!
Shallow embedding of the Measurement Orchestration Engine of the
face-distance-estimation frontend (src/src/App.jsx, with the auth context of
src/unnamed/part_000).

The React component is modelled as a pure state-transition system:

* every useState variable and every useRef cell of FaceDetectionApp becomes a
  field of AppState;
* each callback (the WebSocket onmessage handler, sendFrame, startCountdown,
  startCalibration, captureCalibration, startMeasuringDistance,
  stopMeasuringDistance) becomes a function AppState to AppState;
* effects that leave the component (messages written to the socket, vision-test
  activations, countdown starts) are recorded in ghost transcript fields
  (sent, activations, countdownStarts) so that once-only properties are
  expressible;
* JavaScript timers (setInterval / clearInterval) are modelled by an allocator:
  nextTimer is the next fresh id and live is the list of currently armed
  timers, each tagged with the kind of callback it runs.  A tick event for an
  id that is not live is a no-op, exactly as a cleared interval never fires;
* closure-captured state read by the handlers (isMeasuring, isDistanceReached)
  is modelled as the current state: the component re-registers the WebSocket
  handlers in a useEffect keyed on those values, and the spec (section 5)
  stipulates that each inbound message is processed atomically against the
  current state;
* JavaScript truthiness of optional payload fields is modelled by Option
  together with the emptiness / zero tests that falsy values satisfy.
-/

/-- WebSocket readyState values that matter to the code. -/
inductive WsReady
  | connecting
  | opened
  | closing
  | closed
deriving DecidableEq

/-- Which callback an armed interval timer runs: the frame-capture scheduler
(detectionInterval, created in startMeasuringDistance with sendFrame) or the
countdown timer (countdownTimerRef, created in startCountdown). -/
inductive TimerKind
  | frameCapture
  | countdown
deriving DecidableEq

/-- Messages the client writes to the WebSocket. -/
inductive OutMsg
  | authToken (tok : String)
  | command (c : String)
  | captureImage (img : String)
  | frame (img : String)
deriving DecidableEq

/-- Parsed inbound WebSocket payload.  Field names follow the JSON fields read
by the onmessage handler; absent JSON fields are none / false / []. -/
structure InMsg where
  error : Option String := none
  success : Bool := false
  processed_image : Option String := none
  focal_length : Option Int := none
  reference_box : Option (Nat × Nat) := none
  message : Option String := none
  face_detected : Bool := false
  faces : List Int := []
  at_target_distance : Bool := false
deriving DecidableEq

/-- The spec's measurement phases (section 3 of the spec). -/
inductive Phase
  | Idle
  | Calibrating
  | Calibrated
  | Measuring
  | TargetHeld
  | Countdown
  | VisionTest
deriving DecidableEq

/-- Is the first list an initial segment of the second. -/
def leadsWith : List Char → List Char → Bool
  | [], _ => true
  | _ :: _, [] => false
  | a :: as, b :: bs => a = b && leadsWith as bs

/-- Does the second list occur as a contiguous run inside the first. -/
def hasSub (needle : List Char) : List Char → Bool
  | [] => leadsWith needle []
  | c :: cs => leadsWith needle (c :: cs) || hasSub needle cs

/-- JavaScript String.includes: substring test. -/
def strIncludes (hay needle : String) : Bool :=
  hasSub needle.data hay.data

/-- JavaScript String.toLowerCase (per character). -/
def strLower (t : String) : String :=
  String.mk (t.data.map Char.toLower)

/-- Full state of the FaceDetectionApp component plus the auth context and the
ghost transcripts.  The first block mirrors the useState variables, the second
the useRef cells, then the auth context, the timer allocator and the ghosts. -/
structure AppState where
  showCamera : Bool
  currentDistance : String
  focalLength : Int
  processedImage : Option String
  connectionStatus : String
  isCalibrating : Bool
  isCalibrated : Bool
  statusMessage : String
  isMeasuring : Bool
  referenceBox : Option (Nat × Nat)
  atTargetDistance : Bool
  isDistanceReached : Bool
  lastFaceDetected : Nat
  showCountdown : Bool
  countdownValue : Nat
  showLandoltTest : Bool
  wsReady : Option WsReady
  detectionInterval : Option Nat
  consecutiveTargetFrames : Nat
  framesSinceLastFace : Nat
  countdownTimerRef : Option Nat
  frameCount : Nat
  user : Option String
  token : Option String
  nextTimer : Nat
  live : List (Nat × TimerKind)
  sent : List OutMsg
  countdownStarts : Nat
  activations : Nat
deriving DecidableEq

/-- Initial component state: the useState initialisers of FaceDetectionApp
(t0 stands for the Date.now() evaluated at mount for lastFaceDetected). -/
def initialAppState (t0 : Nat) : AppState :=
  { showCamera := false
    currentDistance := "0m"
    focalLength := 0
    processedImage := none
    connectionStatus := "disconnected"
    isCalibrating := false
    isCalibrated := false
    statusMessage := ""
    isMeasuring := false
    referenceBox := none
    atTargetDistance := false
    isDistanceReached := false
    lastFaceDetected := t0
    showCountdown := false
    countdownValue := 5
    showLandoltTest := false
    wsReady := none
    detectionInterval := none
    consecutiveTargetFrames := 0
    framesSinceLastFace := 0
    countdownTimerRef := none
    frameCount := 0
    user := none
    token := none
    nextTimer := 0
    live := []
    sent := []
    countdownStarts := 0
    activations := 0 }

/-- The test the code performs before every send:
ws.current exists and ws.current.readyState is WebSocket.OPEN. -/
def wsOpen (s : AppState) : Bool :=
  s.wsReady = some WsReady.opened

/-- clearInterval: the timer with this id never fires again. -/
def clearTimer (id : Nat) (l : List (Nat × TimerKind)) : List (Nat × TimerKind) :=
  l.filter (fun p => p.1 != id)

/-- The spec's phase, read off the component flags.  TargetHeld covers the
states the spec calls holding the target: the at-target streak in progress or
the distance already confirmed, while still measuring. -/
def phase (s : AppState) : Phase :=
  if s.showLandoltTest then Phase.VisionTest
  else if s.showCountdown then Phase.Countdown
  else if s.isMeasuring then
    (if s.isDistanceReached || s.atTargetDistance then Phase.TargetHeld else Phase.Measuring)
  else if s.isCalibrating then Phase.Calibrating
  else if s.isCalibrated then Phase.Calibrated
  else Phase.Idle

/-- stopMeasuringDistance (App.jsx lines 243-252): send stop_all when the
socket is open, clear the frame-capture interval, leave measuring. -/
def stopMeasuringDistance (s : AppState) : AppState :=
  { s with
    sent := if wsOpen s then OutMsg.command "stop_all" :: s.sent else s.sent
    live := s.detectionInterval.elim s.live (fun i => clearTimer i s.live)
    detectionInterval := none
    isMeasuring := false }

/-- startCountdown (App.jsx lines 185-206): stop measuring, show the 5-second
countdown, clear any previous countdown interval and arm a fresh one.
countdownStarts is a ghost counter of startCountdown invocations. -/
def startCountdown (s : AppState) : AppState :=
  let s1 := stopMeasuringDistance s
  { s1 with
    showCountdown := true
    countdownValue := 5
    countdownStarts := s1.countdownStarts + 1
    countdownTimerRef := some s1.nextTimer
    nextTimer := s1.nextTimer + 1
    live := (s1.nextTimer, TimerKind.countdown) ::
      s1.countdownTimerRef.elim s1.live (fun j => clearTimer j s1.live) }

/-- One firing of the countdown interval callback (App.jsx lines 195-205).
A tick of a timer id that is not an armed countdown timer is a no-op (a
cleared interval never fires).  On reaching 1 the callback clears the interval
currently referenced by countdownTimerRef, hides the countdown and activates
the Landolt C test; activations is a ghost counter of those activations. -/
def countdownTick (id : Nat) (s : AppState) : AppState :=
  if (id, TimerKind.countdown) ∈ s.live then
    if s.countdownValue ≤ 1 then
      { s with
        live := s.countdownTimerRef.elim s.live (fun j => clearTimer j s.live)
        showCountdown := false
        showLandoltTest := true
        countdownValue := 0
        activations := s.activations + 1 }
    else { s with countdownValue := s.countdownValue - 1 }
  else s

/-- Deliver a list of countdown timer ticks in order. -/
def ticksRun (l : List Nat) (s : AppState) : AppState :=
  l.foldl (fun s id => countdownTick id s) s

/-- startMeasuringDistance (App.jsx lines 228-241): always reset the
distance/target flags and both debounce counters, then (only when the socket
is open) send start_distance, start measuring and arm the 100 ms
frame-capture interval. -/
def startMeasuringDistance (s : AppState) : AppState :=
  let s1 := { s with
    isDistanceReached := false
    atTargetDistance := false
    showCountdown := false
    consecutiveTargetFrames := 0
    framesSinceLastFace := 0 }
  if wsOpen s then
    { s1 with
      sent := OutMsg.command "start_distance" :: s1.sent
      isMeasuring := true
      detectionInterval := some s1.nextTimer
      nextTimer := s1.nextTimer + 1
      live := (s1.nextTimer, TimerKind.frameCapture) :: s1.live
      statusMessage := "📏 Measuring distance... Try to fit your face in the red reference box at 4m" }
  else s1

/-- startCalibration (App.jsx lines 208-216): only acts when the socket is
open. -/
def startCalibration (s : AppState) : AppState :=
  if wsOpen s then
    { s with
      sent := OutMsg.command "start_calibration" :: s.sent
      isCalibrating := true
      isCalibrated := false
      showCamera := true
      statusMessage := "🧍 Stand at one-arm distance and click 'Capture'" }
  else s

/-- captureCalibration (App.jsx lines 218-226): shot is the result of
webcamRef.current?.getScreenshot() (none when the webcam is absent or the
screenshot null); sends only for a truthy screenshot on an open socket. -/
def captureCalibration (shot : Option String) (s : AppState) : AppState :=
  if shot.getD "" = "" then s
  else if wsOpen s then
    { s with sent := OutMsg.captureImage (shot.getD "") :: s.sent }
  else s

/-- sendFrame (App.jsx lines 56-72): bail out unless the webcam exists, the
socket is open and the screenshot is truthy; otherwise transmit the frame,
bump the FPS numerator, and while the distance is reached and no face has
been seen for more than 5000 ms advance the frames-since-last-face counter,
auto-completing the measurement once it passes 10. -/
def sendFrame (now : Nat) (webcam : Bool) (shot : Option String) (s : AppState) : AppState :=
  if webcam = false then s
  else if wsOpen s = false then s
  else if shot.getD "" = "" then s
  else
    let s1 := { s with
      sent := OutMsg.frame (shot.getD "") :: s.sent
      frameCount := s.frameCount + 1 }
    if s.isDistanceReached = true ∧ 5000 < (now : Int) - (s.lastFaceDetected : Int) then
      let s2 := { s1 with framesSinceLastFace := s1.framesSinceLastFace + 1 }
      if 10 < s2.framesSinceLastFace then
        stopMeasuringDistance
          { s2 with
            statusMessage := "✅ Distance measurement complete! 4m distance reached and verified." }
      else s2
    else s1

/-- One firing of the frame-capture interval: the tick only runs when its id
is an armed frame-capture timer. -/
def frameTick (id : Nat) (now : Nat) (webcam : Bool) (shot : Option String)
    (s : AppState) : AppState :=
  if (id, TimerKind.frameCapture) ∈ s.live then sendFrame now webcam shot s else s

/-- logout (AuthContext in src/unnamed/part_000, lines around its logout
definition) composed with its downstream consequences inside this app: the
user and token are cleared, which makes ProtectedRoute unmount
FaceDetectionApp; the unmount cleanup clears the frame-capture and countdown
intervals and closes the WebSocket, and all component state is discarded, so
the observable orchestrator state afterwards is the initial (Idle) state with
no credential.  The timer allocator and the ghost transcripts survive as
history. -/
def doLogout (s : AppState) : AppState :=
  let live1 := s.detectionInterval.elim s.live (fun i => clearTimer i s.live)
  let live2 := s.countdownTimerRef.elim live1 (fun j => clearTimer j live1)
  { initialAppState 0 with
    nextTimer := s.nextTimer
    live := live2
    sent := s.sent
    countdownStarts := s.countdownStarts
    activations := s.activations }

/-- JavaScript truthiness of the error field: an absent field and the empty
string are both falsy, and the branch uses the string itself. -/
def errText (m : InMsg) : String :=
  m.error.getD ""

/-- Truthiness of the message field for the final status update. -/
def msgText (m : InMsg) : String :=
  m.message.getD ""

/-- data.message?.toLowerCase().includes("calibration complete") -/
def calibMsg (m : InMsg) : Bool :=
  strIncludes (strLower (msgText m)) "calibration complete"

/-- if (data.processed_image) setProcessedImage(data.processed_image) -/
def updImage (m : InMsg) (s : AppState) : AppState :=
  { s with processedImage :=
      if m.processed_image.getD "" = "" then s.processedImage else m.processed_image }

/-- if (data.focal_length) setFocalLength(data.focal_length) -/
def updFocal (m : InMsg) (s : AppState) : AppState :=
  { s with focalLength :=
      if m.focal_length.getD 0 = 0 then s.focalLength else m.focal_length.getD 0 }

/-- if (data.reference_box) setReferenceBox(data.reference_box) -/
def updRef (m : InMsg) (s : AppState) : AppState :=
  { s with referenceBox :=
      if m.reference_box.isSome then m.reference_box else s.referenceBox }

/-- The calibration-complete branch of the handler. -/
def updCalib (m : InMsg) (s : AppState) : AppState :=
  { s with
    isCalibrating := if calibMsg m then false else s.isCalibrating
    isCalibrated := if calibMsg m then true else s.isCalibrated
    statusMessage := if calibMsg m then
      "✅ Calibration complete! You can now measure distance." else s.statusMessage }

/-- if (data.face_detected): record the face time, reset
frames-since-last-face. -/
def updFace (now : Nat) (m : InMsg) (s : AppState) : AppState :=
  { s with
    lastFaceDetected := if m.face_detected then now else s.lastFaceDetected
    framesSinceLastFace := if m.face_detected then 0 else s.framesSinceLastFace }

/-- The faces branch (App.jsx lines 141-158), entered with the first detected
face distance d: update the displayed distance; on the at-target flag advance
the consecutive-target-frames counter and, the first time it reaches 15 with
the distance not yet marked reached, mark it reached and start the countdown;
on a frame without the flag reset the counter. -/
def applyFaces (d : Int) (m : InMsg) (s : AppState) : AppState :=
  let s1 := { s with
    currentDistance := if 0 < d then toString d ++ "m" else "Calculating..." }
  if m.at_target_distance then
    let s2 := { s1 with
      atTargetDistance := true
      consecutiveTargetFrames := s1.consecutiveTargetFrames + 1 }
    if 15 ≤ s2.consecutiveTargetFrames ∧ s2.isDistanceReached = false then
      startCountdown
        { s2 with
          isDistanceReached := true
          statusMessage := "🎯 Perfect! You've reached the 4m distance! Starting countdown for vision test..." }
    else s2
  else { s1 with atTargetDistance := false, consecutiveTargetFrames := 0 }

/-- The if (data.success) block of the onmessage handler
(App.jsx lines 117-159). -/
def handleSuccess (now : Nat) (m : InMsg) (s : AppState) : AppState :=
  if m.success then
    let s1 := updFace now m (updCalib m (updRef m (updFocal m (updImage m s))))
    if m.faces = [] then s1
    else if s1.isMeasuring then applyFaces (m.faces.headD 0) m s1
    else s1
  else s

/-- The trailing status-text update (App.jsx lines 161-163): a truthy message
not containing the authenticated-successfully text becomes the status. -/
def updMessage (m : InMsg) (s : AppState) : AppState :=
  { s with statusMessage :=
      if msgText m = "" then s.statusMessage
      else if strIncludes (msgText m) "Authenticated successfully" then s.statusMessage
      else msgText m }

/-- The whole onmessage handler on a successfully parsed payload
(App.jsx lines 105-164): a truthy error is surfaced as status text and, when
it contains the Authentication text, forces a logout, returning before any
other processing; otherwise the success block runs followed by the status
update. -/
def handleMsg (now : Nat) (m : InMsg) (s : AppState) : AppState :=
  if errText m = "" then updMessage m (handleSuccess now m s)
  else
    let s1 := { s with statusMessage := "Error: " ++ errText m }
    if strIncludes (errText m) "Authentication" then doLogout s1 else s1

/-- The onmessage entry point on a raw payload: none stands for a payload
JSON.parse rejects.  The parse is the first statement of the handler, so a
malformed payload aborts the callback before any state update; the host logs
the exception and the socket stays open. -/
def onmessage (now : Nat) (raw : Option InMsg) (s : AppState) : AppState :=
  match raw with
  | none => s
  | some m => handleMsg now m s

/-- Deliver the same inbound message k times in a row (each processed
atomically against the state it finds, per section 5 of the spec). -/
def runMsgs (m : InMsg) : Nat → AppState → AppState
  | 0, s => s
  | Nat.succ k, s => handleMsg 0 m (runMsgs m k s)

/-- A detection event at the target distance: success, one face at 4 m,
at_target_distance set, nothing else. -/
def atTargetEvent : InMsg :=
  { success := true, faces := [4], at_target_distance := true }

/-- A detection event off the target distance: success, one face at 2 m,
no at_target_distance flag. -/
def offTargetEvent : InMsg :=
  { success := true, faces := [2] }

/-! ## Claim C2: malformed inbound payloads -/

/-- C2: a raw inbound payload that fails to parse leaves the whole
orchestrator state unchanged (in particular the phase) and the connection in
whatever state it was, open included; only the host-logged decode error is
observable. -/
theorem claim_C2_malformed_ignored (now : Nat) (s : AppState) :
    onmessage now none s = s
    ∧ phase (onmessage now none s) = phase s
    ∧ (onmessage now none s).wsReady = s.wsReady := by
  exact ⟨rfl, rfl, rfl⟩

/-! ## Claim C5: sends while disconnected are dropped -/

/-- C5: with the Transport Channel not Connected (no socket or a socket whose
readyState differs from OPEN), a scheduler frame, the start-calibration
command, the capture command and the start/stop-distance commands all leave
the sent transcript unchanged: nothing is queued and no error is raised (the
frame, calibration and capture paths are complete no-ops). -/
theorem claim_C5_disconnected_sends (s : AppState) (now : Nat) (w : Bool)
    (shot : Option String) (hws : wsOpen s = false) :
    sendFrame now w shot s = s
    ∧ startCalibration s = s
    ∧ captureCalibration shot s = s
    ∧ (startMeasuringDistance s).sent = s.sent
    ∧ (stopMeasuringDistance s).sent = s.sent := by
  refine ⟨?_, ?_, ?_, ?_, ?_⟩
  · simp [sendFrame, hws]
  · simp [startCalibration, hws]
  · simp [captureCalibration, hws]
  · simp [startMeasuringDistance, hws]
  · simp [stopMeasuringDistance, hws]

/-- Witness for C5 at a concrete disconnected state. -/
theorem claim_C5_disconnected_sends_witness :
    wsOpen (initialAppState 0) = false
    ∧ sendFrame 3 true (some "img") (initialAppState 0) = initialAppState 0 :=
  ⟨by decide, (claim_C5_disconnected_sends (initialAppState 0) 3 true (some "img") (by decide)).1⟩

/-! ## Claim C3: counters on leaving Measuring/TargetHeld -/

/-- A state in phase Measuring with stale counter values, used to refute the
claim that stopping measurement clears the debounce counters. -/
def cexC3 : AppState :=
  { initialAppState 0 with
    isMeasuring := true
    isCalibrated := true
    consecutiveTargetFrames := 7
    framesSinceLastFace := 3
    wsReady := some WsReady.opened }

/-- C3 counterexample: issuing the stop-measuring command from a Measuring
state with consecutive-target-frames 7 and frames-since-last-face 3 leaves
both counters at their old values instead of resetting them to 0, so the
claimed reset on every transition out of Measuring/TargetHeld is false. -/
theorem claim_C3_counterexample :
    phase cexC3 = Phase.Measuring
    ∧ (stopMeasuringDistance cexC3).consecutiveTargetFrames = 7
    ∧ (stopMeasuringDistance cexC3).framesSinceLastFace = 3
    ∧ phase (stopMeasuringDistance cexC3) = Phase.Calibrated := by
  decide

/-- C3 amended, per transition out of Measuring/TargetHeld: the user
stop-measuring command leaves both debounce counters unchanged, returning the
phase to Calibrated, stopping the frame-capture scheduler and sending
stop_all when the socket is open; the threshold transition into Countdown
(startCountdown) also leaves both counters unchanged; only the
logout/teardown exit resets both counters to 0 (the component state is
discarded), and both are likewise reset to 0 on the next entry into
measuring (startMeasuringDistance). -/
theorem claim_C3_stop_keeps_counters (s : AppState)
    (_h1 : s.isMeasuring = true) (h2 : s.isCalibrated = true)
    (h3 : s.isCalibrating = false) (h4 : s.showCountdown = false)
    (h5 : s.showLandoltTest = false) :
    (stopMeasuringDistance s).consecutiveTargetFrames = s.consecutiveTargetFrames
    ∧ (stopMeasuringDistance s).framesSinceLastFace = s.framesSinceLastFace
    ∧ phase (stopMeasuringDistance s) = Phase.Calibrated
    ∧ (stopMeasuringDistance s).detectionInterval = none
    ∧ (wsOpen s = true →
        (stopMeasuringDistance s).sent = OutMsg.command "stop_all" :: s.sent)
    ∧ (startCountdown s).consecutiveTargetFrames = s.consecutiveTargetFrames
    ∧ (startCountdown s).framesSinceLastFace = s.framesSinceLastFace
    ∧ (doLogout s).consecutiveTargetFrames = 0
    ∧ (doLogout s).framesSinceLastFace = 0
    ∧ (startMeasuringDistance s).consecutiveTargetFrames = 0
    ∧ (startMeasuringDistance s).framesSinceLastFace = 0 := by
  refine ⟨rfl, rfl, ?_, rfl, ?_, rfl, rfl, rfl, rfl, ?_, ?_⟩
  · simp [phase, stopMeasuringDistance, h2, h3, h4, h5]
  · intro hw; simp [stopMeasuringDistance, hw]
  · simp [startMeasuringDistance]; split <;> rfl
  · simp [startMeasuringDistance]; split <;> rfl

/-- Witness for C3 (amended) at a concrete TargetHeld-flavoured state. -/
theorem claim_C3_stop_keeps_counters_witness :
    cexC3.isMeasuring = true
    ∧ (stopMeasuringDistance cexC3).consecutiveTargetFrames = cexC3.consecutiveTargetFrames
    ∧ phase (stopMeasuringDistance cexC3) = Phase.Calibrated
    ∧ (doLogout cexC3).consecutiveTargetFrames = 0 :=
  ⟨by decide,
    (claim_C3_stop_keeps_counters cexC3 (by decide) (by decide) (by decide)
      (by decide) (by decide)).1,
    (claim_C3_stop_keeps_counters cexC3 (by decide) (by decide) (by decide)
      (by decide) (by decide)).2.2.1,
    (claim_C3_stop_keeps_counters cexC3 (by decide) (by decide) (by decide)
      (by decide) (by decide)).2.2.2.2.2.2.2.1⟩

/-! ## Claim C9: auto-completion in TargetHeld -/

/-- C9: with the distance reached and more than 5000 ms since the last face,
each transmitted frame advances frames-since-last-face by exactly one, and on
the frame that pushes it past 10 the measurement auto-completes: the
completion status is shown, stop_all is sent, the frame-capture scheduler is
stopped and measuring ends, while the countdown state is untouched (this path
never enters Countdown). -/
theorem claim_C9_autocomplete (s : AppState) (now : Nat) (img : String)
    (hws : wsOpen s = true) (hm : s.isMeasuring = true)
    (hd : s.isDistanceReached = true)
    (ht : 5000 < (now : Int) - (s.lastFaceDetected : Int)) (hi : img ≠ "") :
    (sendFrame now true (some img) s).framesSinceLastFace = s.framesSinceLastFace + 1
    ∧ (10 < s.framesSinceLastFace + 1 →
        (sendFrame now true (some img) s).statusMessage =
          "✅ Distance measurement complete! 4m distance reached and verified."
        ∧ (sendFrame now true (some img) s).sent =
            OutMsg.command "stop_all" :: OutMsg.frame img :: s.sent
        ∧ (sendFrame now true (some img) s).detectionInterval = none
        ∧ (sendFrame now true (some img) s).isMeasuring = false
        ∧ (sendFrame now true (some img) s).showCountdown = s.showCountdown
        ∧ (sendFrame now true (some img) s).countdownStarts = s.countdownStarts)
    ∧ (s.framesSinceLastFace + 1 ≤ 10 →
        (sendFrame now true (some img) s).sent = OutMsg.frame img :: s.sent
        ∧ (sendFrame now true (some img) s).isMeasuring = s.isMeasuring
        ∧ (sendFrame now true (some img) s).showCountdown = s.showCountdown
        ∧ (sendFrame now true (some img) s).countdownStarts = s.countdownStarts) := by
  have hcond : s.isDistanceReached = true ∧ 5000 < (now : Int) - (s.lastFaceDetected : Int) :=
    ⟨hd, ht⟩
  have hws' : s.wsReady = some WsReady.opened := by simpa [wsOpen] using hws
  refine ⟨?_, ?_, ?_⟩
  · simp [sendFrame, wsOpen, hws', hi, hcond]
    split
    · rfl
    · rfl
  · intro h10
    simp [sendFrame, wsOpen, hws', hi, hcond, if_pos h10, stopMeasuringDistance, hm]
  · intro h10
    have hn : ¬ (10 < s.framesSinceLastFace + 1) := by omega
    simp [sendFrame, wsOpen, hws', hi, hcond, if_neg hn]

/-- A concrete TargetHeld state one transmitted frame away from
auto-completion: distance reached, 10 face-less frames already counted, last
face seen at time 0. -/
def cexC9 : AppState :=
  { initialAppState 0 with
    isMeasuring := true
    isCalibrated := true
    isDistanceReached := true
    framesSinceLastFace := 10
    wsReady := some WsReady.opened
    detectionInterval := some 0
    live := [(0, TimerKind.frameCapture)]
    nextTimer := 1 }

/-- Witness for C9: a concrete TargetHeld state one frame from
auto-completion. -/
theorem claim_C9_autocomplete_witness :
    (10 : Nat) < 10 + 1
    ∧ (sendFrame 6000 true (some "img") cexC9).framesSinceLastFace = 11
    ∧ (sendFrame 6000 true (some "img") cexC9).isMeasuring = false :=
  ⟨by decide,
    by
      have h := claim_C9_autocomplete cexC9 6000 "img" (by decide) (by decide)
        (by decide) (by decide) (by decide)
      simpa using h.1,
    ((claim_C9_autocomplete cexC9 6000 "img" (by decide) (by decide) (by decide)
        (by decide) (by decide)).2.1 (by decide)).2.2.2.1⟩

/-! ## Claim C7: authentication-flagged errors -/

/-- A Calibrated session with a logged-in user, used to probe the error
handling. -/
def cexC7 : AppState :=
  { initialAppState 0 with
    isCalibrated := true
    focalLength := 700
    user := some "u"
    token := some "t"
    wsReady := some WsReady.opened }

/-- An inbound error whose text contains the Authentication marker without
starting with it. -/
def cexC7msg : InMsg :=
  { error := some "Fatal: Authentication rejected" }

/-- C7 counterexample: the code matches the authentication pattern with a
substring test, not a prefix test.  An error text that merely contains
Authentication in the middle is, by the claim, an ordinary operational error
that must leave the phase unchanged; the code instead forces the logout: the
phase falls from Calibrated to Idle and the credential is cleared. -/
theorem claim_C7_counterexample :
    leadsWith "Authentication".data "Fatal: Authentication rejected".data = false
    ∧ phase cexC7 = Phase.Calibrated
    ∧ phase (handleMsg 0 cexC7msg cexC7) = Phase.Idle
    ∧ (handleMsg 0 cexC7msg cexC7).user = none
    ∧ (handleMsg 0 cexC7msg cexC7).token = none := by
  decide

/-- C7 amended: the authentication-failure pattern is a substring match on
Authentication (not a prefix match).  Any inbound message whose truthy error
text contains that substring forces session termination at any phase: the
credential is cleared, the phase is driven to Idle and the calibration data
(calibrated flag, focal length, reference box) is cleared.  An error text
without the substring only sets the status text, leaving everything else, the
phase included, unchanged. -/
theorem claim_C7_auth_error (s : AppState) (m : InMsg) (now : Nat) (e : String)
    (he : m.error = some e) (hne : e ≠ "") :
    (strIncludes e "Authentication" = true →
        (handleMsg now m s).user = none
        ∧ (handleMsg now m s).token = none
        ∧ phase (handleMsg now m s) = Phase.Idle
        ∧ (handleMsg now m s).isCalibrated = false
        ∧ (handleMsg now m s).focalLength = 0
        ∧ (handleMsg now m s).referenceBox = none)
    ∧ (strIncludes e "Authentication" = false →
        handleMsg now m s = { s with statusMessage := "Error: " ++ e }) := by
  have het : errText m = e := by simp [errText, he]
  constructor
  · intro hauth
    simp [handleMsg, het, hne, hauth, doLogout, phase, initialAppState]
  · intro hauth
    simp [handleMsg, het, hne, hauth]

/-- Witness for C7 (amended), reusing the concrete session of the
counterexample with an error that does carry the substring. -/
theorem claim_C7_auth_error_witness :
    strIncludes "Fatal: Authentication rejected" "Authentication" = true
    ∧ (handleMsg 0 cexC7msg cexC7).user = none
    ∧ phase (handleMsg 0 cexC7msg cexC7) = Phase.Idle :=
  ⟨by decide,
    ((claim_C7_auth_error cexC7 cexC7msg 0 "Fatal: Authentication rejected"
        (by decide) (by decide)).1 (by decide)).1,
    ((claim_C7_auth_error cexC7 cexC7msg 0 "Fatal: Authentication rejected"
        (by decide) (by decide)).1 (by decide)).2.2.1⟩

/-! ## Claim C8: stray detection events while Idle -/

/-- A detection event carrying a processed image and a face flag and nothing
else. -/
def cexC8msg : InMsg :=
  { success := true, processed_image := some "img", face_detected := true }

/-- C8 counterexample: a stray Detection Event received in the Idle state
does update orchestrator state: the processed-image field changes (and the
last-face timestamp moves with it), so the claim that such events update no
state is false.  Only the phase-gated parts (distance, counters, phase) are
protected. -/
theorem claim_C8_counterexample :
    phase (initialAppState 0) = Phase.Idle
    ∧ (initialAppState 0).processedImage = none
    ∧ (handleMsg 5 cexC8msg (initialAppState 0)).processedImage = some "img"
    ∧ (handleMsg 5 cexC8msg (initialAppState 0)).lastFaceDetected = 5 := by
  decide

/-- C8 amended: a stray Detection Event while Idle (a successfully parsed
message with no truthy error text and not announcing calibration completion)
cannot change the phase, the displayed distance, the target flags and
counter, or the sent transcript, because the faces branch is gated on
measuring; the phase-independent fields (processed image, focal length,
reference box, last-face timestamp, frames-since-last-face, status text) are
still updated as for any phase. -/
theorem claim_C8_stray_events (s : AppState) (m : InMsg) (now : Nat)
    (h1 : s.isMeasuring = false) (h2 : s.isCalibrating = false)
    (h3 : s.isCalibrated = false) (h4 : s.showCountdown = false)
    (h5 : s.showLandoltTest = false)
    (he : errText m = "") (hc : calibMsg m = false) :
    phase (handleMsg now m s) = Phase.Idle
    ∧ (handleMsg now m s).consecutiveTargetFrames = s.consecutiveTargetFrames
    ∧ (handleMsg now m s).currentDistance = s.currentDistance
    ∧ (handleMsg now m s).atTargetDistance = s.atTargetDistance
    ∧ (handleMsg now m s).isDistanceReached = s.isDistanceReached
    ∧ (handleMsg now m s).countdownStarts = s.countdownStarts
    ∧ (handleMsg now m s).sent = s.sent := by
  have hbody : handleMsg now m s = updMessage m (handleSuccess now m s) := by
    simp [handleMsg, he]
  rw [hbody]
  by_cases hsucc : m.success
  · by_cases hf : m.faces = []
    · simp [handleSuccess, hsucc, hf, updMessage, updFace, updCalib, updRef,
        updFocal, updImage, hc, phase, h1, h2, h3, h4, h5]
    · simp [handleSuccess, hsucc, hf, h1, updMessage, updFace, updCalib, updRef,
        updFocal, updImage, hc, phase, h2, h3, h4, h5]
  · simp [handleSuccess, hsucc, updMessage, phase, h1, h2, h3, h4, h5]

/-- Witness for C8 (amended) at the initial state with the stray event of the
counterexample. -/
theorem claim_C8_stray_events_witness :
    errText cexC8msg = ""
    ∧ phase (handleMsg 5 cexC8msg (initialAppState 0)) = Phase.Idle
    ∧ (handleMsg 5 cexC8msg (initialAppState 0)).sent = (initialAppState 0).sent :=
  ⟨by decide,
    (claim_C8_stray_events (initialAppState 0) cexC8msg 5 (by decide) (by decide)
      (by decide) (by decide) (by decide) (by decide) (by decide)).1,
    (claim_C8_stray_events (initialAppState 0) cexC8msg 5 (by decide) (by decide)
      (by decide) (by decide) (by decide) (by decide) (by decide)).2.2.2.2.2.2⟩

/-! ## Claim C10: informational message text -/

/-- A message carrying both an error and an informational text. -/
def cexC10msg : InMsg :=
  { error := some "boom", message := some "hi" }

/-- C10 counterexample: a successfully parsed message that carries a message
text is not always copied to the status verbatim: when a truthy error field
is present the handler returns early and the status becomes the error text,
even though the message text does not contain the suppressed marker.  The
suppression is therefore not the only filtering applied. -/
theorem claim_C10_counterexample :
    strIncludes "hi" "Authenticated successfully" = false
    ∧ (handleMsg 0 cexC10msg (initialAppState 0)).statusMessage = "Error: boom" := by
  decide

/-- C10 amended: for a successfully parsed message with no truthy error text,
an empty faces list and not announcing calibration completion, the status
text becomes the message text verbatim exactly when that text is nonempty and
does not contain the text Authenticated successfully; otherwise (empty text
or the marker present) the status is left unchanged. -/
theorem claim_C10_status_text (s : AppState) (m : InMsg) (t : String) (now : Nat)
    (he : errText m = "") (hm : m.message = some t) (hf : m.faces = [])
    (hc : calibMsg m = false) :
    (handleMsg now m s).statusMessage =
      if t ≠ "" ∧ strIncludes t "Authenticated successfully" = false then t
      else s.statusMessage := by
  have hmt : msgText m = t := by simp [msgText, hm]
  have hbody : handleMsg now m s = updMessage m (handleSuccess now m s) := by
    simp [handleMsg, he]
  have hstat : (handleSuccess now m s).statusMessage = s.statusMessage := by
    by_cases hsucc : m.success
    · simp [handleSuccess, hsucc, hf, updFace, updCalib, updRef, updFocal,
        updImage, hc]
    · simp [handleSuccess, hsucc]
  rw [hbody]
  by_cases hte : t = ""
  · simp [updMessage, hmt, hte, hstat]
  · by_cases hauth : strIncludes t "Authenticated successfully" = true
    · simp [updMessage, hmt, hte, hauth, hstat]
    · simp only [Bool.not_eq_true] at hauth
      simp [updMessage, hmt, hte, hauth, hstat]

/-- Witness for C10 (amended) on a pure status-text message. -/
theorem claim_C10_status_text_witness :
    errText { message := some "hello" : InMsg } = ""
    ∧ (handleMsg 0 { message := some "hello" : InMsg } (initialAppState 0)).statusMessage =
        (if "hello" ≠ "" ∧ strIncludes "hello" "Authenticated successfully" = false
          then "hello" else (initialAppState 0).statusMessage) :=
  ⟨by decide,
    claim_C10_status_text (initialAppState 0) { message := some "hello" } "hello" 0
      (by decide) (by decide) (by decide) (by decide)⟩

/-! ## Run lemmas for consecutive at-target detection events -/

/-- A cleared timer id is gone from the armed list. -/
theorem not_mem_clearTimer_self (i : Nat) (k : TimerKind) (l : List (Nat × TimerKind)) :
    (i, k) ∉ clearTimer i l := by
  simp [clearTimer, List.mem_filter]

/-- Clearing a timer only removes entries. -/
theorem mem_of_mem_clearTimer {p : Nat × TimerKind} {j : Nat}
    {l : List (Nat × TimerKind)} (h : p ∈ clearTimer j l) : p ∈ l :=
  (List.mem_filter.1 h).1

/-- Invariant of a measuring run about to receive at-target frames: measuring
with the distance not yet reached, calibrated, neither countdown nor test
showing, the counter at k, the socket open and the frame-capture interval i
armed. -/
def MeasuringAt (i k : Nat) (s : AppState) : Prop :=
  s.isMeasuring = true ∧ s.isDistanceReached = false ∧ s.isCalibrating = false
  ∧ s.isCalibrated = true ∧ s.showCountdown = false ∧ s.showLandoltTest = false
  ∧ s.consecutiveTargetFrames = k ∧ s.wsReady = some WsReady.opened
  ∧ s.detectionInterval = some i ∧ (i, TimerKind.frameCapture) ∈ s.live

/-- An at-target detection event processed while measuring, below the
threshold: only the displayed distance, the at-target flag and the counter
change. -/
theorem handleMsg_atTarget_low (s : AppState) (hm : s.isMeasuring = true)
    (hd : s.isDistanceReached = false) (hlt : s.consecutiveTargetFrames + 1 < 15) :
    handleMsg 0 atTargetEvent s =
      { s with
        currentDistance := "4m"
        atTargetDistance := true
        consecutiveTargetFrames := s.consecutiveTargetFrames + 1 } := by
  have hno : ¬ (15 ≤ s.consecutiveTargetFrames + 1) := by omega
  have hcal : calibMsg atTargetEvent = false := by decide
  have h4m : toString (4 : Int) ++ "m" = "4m" := by decide
  have h04 : (0 : Int) < 4 := by decide
  simp only [atTargetEvent] at hcal
  simp [handleMsg, errText, atTargetEvent, updMessage, msgText, handleSuccess,
    updFace, updCalib, hcal, updRef, updFocal, updImage, hm, hd,
    applyFaces, hno, h4m, h04]

/-- An off-target detection event processed while measuring resets the
counter and the flag. -/
theorem handleMsg_offTarget (s : AppState) (hm : s.isMeasuring = true) :
    handleMsg 0 offTargetEvent s =
      { s with
        currentDistance := "2m"
        atTargetDistance := false
        consecutiveTargetFrames := 0 } := by
  have hcal : calibMsg offTargetEvent = false := by decide
  have h2m : toString (2 : Int) ++ "m" = "2m" := by decide
  have h02 : (0 : Int) < 2 := by decide
  simp only [offTargetEvent] at hcal
  simp [handleMsg, errText, offTargetEvent, updMessage, msgText, handleSuccess,
    updFace, updCalib, hcal, updRef, updFocal, updImage, hm,
    applyFaces, h2m, h02]

/-- The at-target detection event that pushes the counter to 15 with the
distance not yet reached fires the transition: the distance is marked
reached, the target status is shown and the countdown starts. -/
theorem handleMsg_atTarget_fire (s : AppState) (hm : s.isMeasuring = true)
    (hd : s.isDistanceReached = false) (hge : 14 ≤ s.consecutiveTargetFrames) :
    handleMsg 0 atTargetEvent s =
      startCountdown
        { s with
          currentDistance := "4m"
          atTargetDistance := true
          consecutiveTargetFrames := s.consecutiveTargetFrames + 1
          isDistanceReached := true
          statusMessage := "🎯 Perfect! You've reached the 4m distance! Starting countdown for vision test..." } := by
  have hyes : 15 ≤ s.consecutiveTargetFrames + 1 := by omega
  have hcal : calibMsg atTargetEvent = false := by decide
  have h4m : toString (4 : Int) ++ "m" = "4m" := by decide
  have h04 : (0 : Int) < 4 := by decide
  simp only [atTargetEvent] at hcal
  simp [handleMsg, errText, atTargetEvent, updMessage, msgText, handleSuccess,
    updFace, updCalib, hcal, updRef, updFocal, updImage, hm, hd,
    applyFaces, hyes, h4m, h04]

/-- Once measuring has stopped, further at-target detection events change
nothing at all. -/
theorem handleMsg_atTarget_stopped (now : Nat) (s : AppState)
    (hm : s.isMeasuring = false) :
    handleMsg now atTargetEvent s = s := by
  have hcal : calibMsg atTargetEvent = false := by decide
  simp only [atTargetEvent] at hcal
  simp [handleMsg, errText, atTargetEvent, updMessage, msgText, handleSuccess,
    updFace, updCalib, hcal, updRef, updFocal, updImage, hm]
  show { s with isMeasuring := false } = s
  rw [← hm]

/-- Up to 14 consecutive at-target events keep the measuring invariant, with
the counter tracking the number of events and no outbound traffic, no
countdown start, no timer change. -/
theorem runMsgs_atTarget_le14 (s : AppState) (i : Nat) (h : MeasuringAt i 0 s) :
    ∀ k, k ≤ 14 →
      MeasuringAt i k (runMsgs atTargetEvent k s)
      ∧ (runMsgs atTargetEvent k s).sent = s.sent
      ∧ (runMsgs atTargetEvent k s).countdownStarts = s.countdownStarts
      ∧ (runMsgs atTargetEvent k s).live = s.live
      ∧ (runMsgs atTargetEvent k s).countdownTimerRef = s.countdownTimerRef
      ∧ (runMsgs atTargetEvent k s).nextTimer = s.nextTimer
      ∧ (runMsgs atTargetEvent k s).activations = s.activations := by
  intro k
  induction k with
  | zero => exact fun _ => ⟨h, rfl, rfl, rfl, rfl, rfl, rfl⟩
  | succ n ih =>
    intro hk
    obtain ⟨hinv, hsent, hstarts, hlive, href, hnext, hact⟩ := ih (by omega)
    obtain ⟨q1, q2, q3, q4, q5, q6, q7, q8, q9, q10⟩ := hinv
    have hlt : (runMsgs atTargetEvent n s).consecutiveTargetFrames + 1 < 15 := by
      omega
    have hstep := handleMsg_atTarget_low (runMsgs atTargetEvent n s) q1 q2 hlt
    have hr : runMsgs atTargetEvent (n + 1) s =
        { runMsgs atTargetEvent n s with
          currentDistance := "4m"
          atTargetDistance := true
          consecutiveTargetFrames :=
            (runMsgs atTargetEvent n s).consecutiveTargetFrames + 1 } := hstep
    rw [hr]
    exact ⟨⟨q1, q2, q3, q4, q5, q6, by simp [q7], q8, q9, q10⟩,
      hsent, hstarts, hlive, href, hnext, hact⟩

/-- The 15th consecutive at-target event fires the transition exactly at the
threshold: distance reached, countdown shown at 5, exactly one countdown
start, measuring and its scheduler stopped, and exactly one stop_all sent. -/
theorem runMsgs_atTarget_15 (s : AppState) (i : Nat) (h : MeasuringAt i 0 s) :
    (runMsgs atTargetEvent 15 s).isDistanceReached = true
    ∧ (runMsgs atTargetEvent 15 s).showCountdown = true
    ∧ (runMsgs atTargetEvent 15 s).countdownValue = 5
    ∧ (runMsgs atTargetEvent 15 s).countdownStarts = s.countdownStarts + 1
    ∧ (runMsgs atTargetEvent 15 s).isMeasuring = false
    ∧ (runMsgs atTargetEvent 15 s).detectionInterval = none
    ∧ (i, TimerKind.frameCapture) ∉ (runMsgs atTargetEvent 15 s).live
    ∧ (runMsgs atTargetEvent 15 s).sent = OutMsg.command "stop_all" :: s.sent := by
  obtain ⟨hinv, hsent, hstarts, hlive, href, hnext, hact⟩ :=
    runMsgs_atTarget_le14 s i h 14 (by omega)
  obtain ⟨q1, q2, q3, q4, q5, q6, q7, q8, q9, q10⟩ := hinv
  have hfire := handleMsg_atTarget_fire (runMsgs atTargetEvent 14 s) q1 q2 (by omega)
  have hr : runMsgs atTargetEvent 15 s =
      startCountdown
        { runMsgs atTargetEvent 14 s with
          currentDistance := "4m"
          atTargetDistance := true
          consecutiveTargetFrames :=
            (runMsgs atTargetEvent 14 s).consecutiveTargetFrames + 1
          isDistanceReached := true
          statusMessage := "🎯 Perfect! You've reached the 4m distance! Starting countdown for vision test..." } :=
    hfire
  rw [hr]
  refine ⟨rfl, rfl, rfl, ?_, rfl, rfl, ?_, ?_⟩
  · simp [startCountdown, stopMeasuringDistance, hstarts]
  · intro hmem
    simp only [startCountdown, stopMeasuringDistance, wsOpen, q9,
      Option.elim] at hmem
    rcases List.mem_cons.1 hmem with hhead | htail
    · exact TimerKind.noConfusion (congrArg Prod.snd hhead)
    · rcases hrc : (runMsgs atTargetEvent 14 s).countdownTimerRef with _ | j
      · rw [hrc] at htail
        simp only [Option.elim] at htail
        exact not_mem_clearTimer_self i TimerKind.frameCapture _ htail
      · rw [hrc] at htail
        simp only [Option.elim] at htail
        exact not_mem_clearTimer_self i TimerKind.frameCapture _
          (mem_of_mem_clearTimer htail)
  · simp [startCountdown, stopMeasuringDistance, wsOpen, q8, hsent]

/-- After the transition has fired, the run is a fixpoint: every further
at-target event leaves the state exactly as after the 15th. -/
theorem runMsgs_atTarget_fixed (s : AppState) (i : Nat) (h : MeasuringAt i 0 s) :
    ∀ k, 15 ≤ k → runMsgs atTargetEvent k s = runMsgs atTargetEvent 15 s := by
  have hstop : (runMsgs atTargetEvent 15 s).isMeasuring = false :=
    (runMsgs_atTarget_15 s i h).2.2.2.2.1
  have haux : ∀ j, runMsgs atTargetEvent (15 + j) s = runMsgs atTargetEvent 15 s := by
    intro j
    induction j with
    | zero => rfl
    | succ n ih =>
      show handleMsg 0 atTargetEvent (runMsgs atTargetEvent (15 + n) s) = _
      rw [ih, handleMsg_atTarget_stopped 0 _ hstop]
  intro k hk
  have hk' : 15 + (k - 15) = k := by omega
  rw [← hk', haux]

/-! ## Claim C1: the 15-frame threshold fires exactly once -/

/-- A canonical Measuring state: calibrated, measuring just started, socket
open, frame-capture interval 0 armed. -/
def sMeasuring0 : AppState :=
  { initialAppState 0 with
    isMeasuring := true
    isCalibrated := true
    wsReady := some WsReady.opened
    detectionInterval := some 0
    live := [(0, TimerKind.frameCapture)]
    nextTimer := 1 }

/-- C1: from any Measuring state (invariant MeasuringAt with counter 0), a
run of consecutive at-target detection events leaves the transition unfired
through the 14th event (distance not reached, no countdown, nothing sent,
counter equal to the number of events, scheduler armed); the 15th event --
the one that pushes the counter to exactly 15 -- fires it exactly once:
distance reached, the 5-second countdown started exactly once, exactly one
stop_all sent and the frame-capture scheduler stopped; and every further
at-target event while distance-reached holds leaves the state exactly as
after the 15th, so the transition can never re-fire. -/
theorem claim_C1_threshold_fires_once (s : AppState) (i : Nat)
    (h : MeasuringAt i 0 s) (hat : s.atTargetDistance = false) :
    phase s = Phase.Measuring
    ∧ (∀ k, k ≤ 14 →
        (runMsgs atTargetEvent k s).isDistanceReached = false
        ∧ (runMsgs atTargetEvent k s).showCountdown = false
        ∧ (runMsgs atTargetEvent k s).countdownStarts = s.countdownStarts
        ∧ (runMsgs atTargetEvent k s).consecutiveTargetFrames = k
        ∧ (runMsgs atTargetEvent k s).detectionInterval = some i
        ∧ (runMsgs atTargetEvent k s).sent = s.sent)
    ∧ ((runMsgs atTargetEvent 15 s).isDistanceReached = true
        ∧ (runMsgs atTargetEvent 15 s).showCountdown = true
        ∧ (runMsgs atTargetEvent 15 s).countdownValue = 5
        ∧ (runMsgs atTargetEvent 15 s).countdownStarts = s.countdownStarts + 1
        ∧ (runMsgs atTargetEvent 15 s).isMeasuring = false
        ∧ (runMsgs atTargetEvent 15 s).detectionInterval = none
        ∧ (i, TimerKind.frameCapture) ∉ (runMsgs atTargetEvent 15 s).live
        ∧ (runMsgs atTargetEvent 15 s).sent = OutMsg.command "stop_all" :: s.sent)
    ∧ (∀ k, 15 ≤ k → runMsgs atTargetEvent k s = runMsgs atTargetEvent 15 s) := by
  obtain ⟨q1, q2, q3, q4, q5, q6, q7, q8, q9, q10⟩ := h
  refine ⟨?_, ?_,
    runMsgs_atTarget_15 s i ⟨q1, q2, q3, q4, q5, q6, q7, q8, q9, q10⟩,
    runMsgs_atTarget_fixed s i ⟨q1, q2, q3, q4, q5, q6, q7, q8, q9, q10⟩⟩
  · simp [phase, q1, q2, q5, q6, hat]
  · intro k hk
    obtain ⟨⟨p1, p2, p3, p4, p5, p6, p7, p8, p9, p10⟩, psent, pstarts, prest⟩ :=
      runMsgs_atTarget_le14 s i ⟨q1, q2, q3, q4, q5, q6, q7, q8, q9, q10⟩ k hk
    exact ⟨p2, p5, pstarts, p7, p9, psent⟩

/-- Witness for C1 at the canonical Measuring state. -/
theorem claim_C1_threshold_fires_once_witness :
    MeasuringAt 0 0 sMeasuring0
    ∧ phase sMeasuring0 = Phase.Measuring
    ∧ (runMsgs atTargetEvent 15 sMeasuring0).isDistanceReached = true
    ∧ (runMsgs atTargetEvent 15 sMeasuring0).countdownStarts =
        sMeasuring0.countdownStarts + 1 :=
  ⟨by unfold MeasuringAt; decide,
    (claim_C1_threshold_fires_once sMeasuring0 0 (by unfold MeasuringAt; decide)
      (by decide)).1,
    (claim_C1_threshold_fires_once sMeasuring0 0 (by unfold MeasuringAt; decide)
      (by decide)).2.2.1.1,
    (claim_C1_threshold_fires_once sMeasuring0 0 (by unfold MeasuringAt; decide)
      (by decide)).2.2.1.2.2.2.1⟩

/-! ## Claim C4: counter dynamics -/

/-- A Measuring state with a running streak of 5. -/
def cexC4state : AppState :=
  { initialAppState 0 with
    isMeasuring := true
    isCalibrated := true
    consecutiveTargetFrames := 5
    wsReady := some WsReady.opened }

/-- A detection event lacking the at-target flag and lacking a faces list. -/
def cexC4msg : InMsg :=
  { success := true, face_detected := true }

/-- C4 counterexample: a Detection Event received while Measuring that lacks
the at-target flag does not always reset the counter: when the event carries
no faces list, the whole faces branch is skipped and the counter keeps its
value (here 5), so the claimed reset on any event lacking the flag is
false. -/
theorem claim_C4_counterexample :
    phase cexC4state = Phase.Measuring
    ∧ cexC4msg.at_target_distance = false
    ∧ (handleMsg 7 cexC4msg cexC4state).consecutiveTargetFrames = 5 := by
  decide

section

set_option maxHeartbeats 1000000
set_option maxRecDepth 8192

/-- C4 amended: the counter updates are driven only by Detection Events
carrying a nonempty faces list while measuring: such an event increments the
counter by exactly one when the at-target flag is set and resets it to 0 when
the flag is absent, while an event without faces leaves the counter
unchanged.  In particular a single off-target event after 14 consecutive
at-target events resets the streak to 0, 14 further at-target events bring it
back only to 14 without firing the transition, and the 15th fresh at-target
event fires it. -/
theorem claim_C4_counter_dynamics (sAny s : AppState) (m : InMsg) (now i : Nat)
    (hmAny : sAny.isMeasuring = true) (he : errText m = "")
    (hs : m.success = true) (h : MeasuringAt i 0 s) :
    (m.at_target_distance = true → m.faces ≠ [] →
      (handleMsg now m sAny).consecutiveTargetFrames =
        sAny.consecutiveTargetFrames + 1)
    ∧ (m.at_target_distance = false → m.faces ≠ [] →
      (handleMsg now m sAny).consecutiveTargetFrames = 0)
    ∧ (m.faces = [] →
      (handleMsg now m sAny).consecutiveTargetFrames =
        sAny.consecutiveTargetFrames)
    ∧ (runMsgs atTargetEvent 14 s).consecutiveTargetFrames = 14
    ∧ (runMsgs atTargetEvent 14 s).isDistanceReached = false
    ∧ (runMsgs atTargetEvent 14 s).countdownStarts = s.countdownStarts
    ∧ (handleMsg 0 offTargetEvent
        (runMsgs atTargetEvent 14 s)).consecutiveTargetFrames = 0
    ∧ (runMsgs atTargetEvent 14 (handleMsg 0 offTargetEvent
        (runMsgs atTargetEvent 14 s))).consecutiveTargetFrames = 14
    ∧ (runMsgs atTargetEvent 14 (handleMsg 0 offTargetEvent
        (runMsgs atTargetEvent 14 s))).isDistanceReached = false
    ∧ (runMsgs atTargetEvent 14 (handleMsg 0 offTargetEvent
        (runMsgs atTargetEvent 14 s))).countdownStarts = s.countdownStarts
    ∧ (handleMsg 0 atTargetEvent (runMsgs atTargetEvent 14
        (handleMsg 0 offTargetEvent
          (runMsgs atTargetEvent 14 s)))).isDistanceReached = true
    ∧ (handleMsg 0 atTargetEvent (runMsgs atTargetEvent 14
        (handleMsg 0 offTargetEvent
          (runMsgs atTargetEvent 14 s)))).countdownStarts =
        s.countdownStarts + 1 := by
  have hbody : handleMsg now m sAny = updMessage m (handleSuccess now m sAny) := by
    simp [handleMsg, he]
  obtain ⟨hinv, hsent, hstarts, hlive, href, hnext, hact⟩ :=
    runMsgs_atTarget_le14 s i h 14 (by omega)
  obtain ⟨q1, q2, q3, q4, q5, q6, q7, q8, q9, q10⟩ := hinv
  have hoff := handleMsg_offTarget (runMsgs atTargetEvent 14 s) q1
  have hF : MeasuringAt i 0
      (handleMsg 0 offTargetEvent (runMsgs atTargetEvent 14 s)) := by
    rw [hoff]
    exact ⟨q1, q2, q3, q4, q5, q6, rfl, q8, q9, q10⟩
  have hFstarts : (handleMsg 0 offTargetEvent
      (runMsgs atTargetEvent 14 s)).countdownStarts = s.countdownStarts := by
    rw [hoff]; exact hstarts
  obtain ⟨hinv2, hsent2, hstarts2, hlive2, href2, hnext2, hact2⟩ :=
    runMsgs_atTarget_le14 _ i hF 14 (by omega)
  obtain ⟨p1, p2, p3, p4, p5, p6, p7, p8, p9, p10⟩ := hinv2
  have hfire := handleMsg_atTarget_fire _ p1 p2 (by omega)
  refine ⟨?_, ?_, ?_, q7, q2, hstarts, ?_, p7, p2, ?_, ?_, ?_⟩
  · intro ht hf
    rw [hbody]
    show (handleSuccess now m sAny).consecutiveTargetFrames =
      sAny.consecutiveTargetFrames + 1
    simp [handleSuccess, hs, hf, hmAny, ht, applyFaces, updFace, updCalib,
      updRef, updFocal, updImage]
    split
    · rfl
    · rfl
  · intro ht hf
    rw [hbody]
    show (handleSuccess now m sAny).consecutiveTargetFrames = 0
    simp [handleSuccess, hs, hf, hmAny, ht, applyFaces, updFace, updCalib,
      updRef, updFocal, updImage]
  · intro hf
    rw [hbody]
    show (handleSuccess now m sAny).consecutiveTargetFrames =
      sAny.consecutiveTargetFrames
    by_cases hsucc : m.success <;>
      simp [handleSuccess, hsucc, hf, updFace, updCalib, updRef, updFocal,
        updImage]
  · rw [hoff]
  · exact hstarts2.trans hFstarts
  · rw [hfire]; rfl
  · rw [hfire]
    show (runMsgs atTargetEvent 14 (handleMsg 0 offTargetEvent
      (runMsgs atTargetEvent 14 s))).countdownStarts + 1 = s.countdownStarts + 1
    rw [hstarts2, hFstarts]

end

/-- Witness for C4 at the canonical Measuring state with the at-target
event. -/
theorem claim_C4_counter_dynamics_witness :
    sMeasuring0.isMeasuring = true
    ∧ atTargetEvent.at_target_distance = true
    ∧ (handleMsg 0 atTargetEvent sMeasuring0).consecutiveTargetFrames =
        sMeasuring0.consecutiveTargetFrames + 1
    ∧ (runMsgs atTargetEvent 14 sMeasuring0).consecutiveTargetFrames = 14 :=
  ⟨by decide, by decide,
    (claim_C4_counter_dynamics sMeasuring0 sMeasuring0 atTargetEvent 0 0
      (by decide) (by decide) (by decide) (by unfold MeasuringAt; decide)).1
      (by decide) (by decide),
    (claim_C4_counter_dynamics sMeasuring0 sMeasuring0 atTargetEvent 0 0
      (by decide) (by decide) (by decide) (by unfold MeasuringAt; decide)).2.2.2.1⟩

/-! ## Claim C6: double countdown start -/

/-- Timer cleanliness: every armed countdown timer is the one referenced by
countdownTimerRef.  This holds in every reachable state because startCountdown
always clears the referenced interval before arming a new one and the
countdown callback clears the referenced interval on completion. -/
def CleanTimers (s : AppState) : Prop :=
  ∀ p ∈ s.live, p.2 = TimerKind.countdown → s.countdownTimerRef = some p.1

/-- Some countdown timer is armed. -/
def hasLiveCd (s : AppState) : Prop :=
  ∃ p ∈ s.live, p.2 = TimerKind.countdown

instance (s : AppState) : Decidable (hasLiveCd s) :=
  inferInstanceAs (Decidable (∃ p ∈ s.live, p.2 = TimerKind.countdown))

/-- Stopping measurement only clears the frame-capture interval, so timer
cleanliness survives. -/
theorem clean_stop (s : AppState) (h : CleanTimers s) :
    CleanTimers (stopMeasuringDistance s) := by
  intro p hp hk
  have hps : p ∈ s.live := by
    simp only [stopMeasuringDistance] at hp
    cases hdi : s.detectionInterval with
    | none => rw [hdi] at hp; simpa using hp
    | some i =>
        rw [hdi] at hp
        exact mem_of_mem_clearTimer (by simpa using hp)
  exact h p hps hk

/-- After clearing the interval referenced by countdownTimerRef, no armed
countdown timer remains (cleanliness says the referenced one was the only
one). -/
theorem noCd_clear_ref (s : AppState) (h : CleanTimers s) :
    ∀ p ∈ s.countdownTimerRef.elim s.live (fun j => clearTimer j s.live),
      p.2 ≠ TimerKind.countdown := by
  intro p hp hk
  cases href : s.countdownTimerRef with
  | none =>
      rw [href] at hp
      simp only [Option.elim] at hp
      have hcontra := h p hp hk
      rw [href] at hcontra
      exact Option.noConfusion hcontra
  | some j =>
      rw [href] at hp
      simp only [Option.elim] at hp
      have h1 : p ∈ s.live := mem_of_mem_clearTimer hp
      have h2 := h p h1 hk
      rw [href] at h2
      have h3 : p.1 = j := (Option.some.inj h2).symm
      have h4 : (p.1 != j) = true := (List.mem_filter.1 hp).2
      rw [h3] at h4
      simp at h4

/-- startCountdown keeps timer cleanliness: the freshly armed countdown timer
is the referenced one, and the clearing step removed any previous one. -/
theorem clean_startCountdown (s : AppState) (h : CleanTimers s) :
    CleanTimers (startCountdown s) := by
  intro p hp hk
  simp only [startCountdown] at hp ⊢
  rcases List.mem_cons.1 hp with hhead | htail
  · rw [hhead]
  · exact absurd hk
      (noCd_clear_ref (stopMeasuringDistance s) (clean_stop s h) p htail)

/-- A countdown tick whose id is not an armed countdown timer does nothing. -/
theorem countdownTick_not_live (s : AppState) (id : Nat)
    (h : (id, TimerKind.countdown) ∉ s.live) : countdownTick id s = s := by
  simp [countdownTick, h]

/-- A live countdown tick above 1 just decrements the displayed value. -/
theorem countdownTick_dec (s : AppState) (id : Nat)
    (hm : (id, TimerKind.countdown) ∈ s.live) (hv : ¬ s.countdownValue ≤ 1) :
    countdownTick id s = { s with countdownValue := s.countdownValue - 1 } := by
  simp [countdownTick, hm, hv]

/-- A live countdown tick at 1 completes: clears the referenced interval,
hides the countdown and performs the handoff. -/
theorem countdownTick_done (s : AppState) (id : Nat)
    (hm : (id, TimerKind.countdown) ∈ s.live) (hv : s.countdownValue ≤ 1) :
    countdownTick id s =
      { s with
        live := s.countdownTimerRef.elim s.live (fun j => clearTimer j s.live)
        showCountdown := false
        showLandoltTest := true
        countdownValue := 0
        activations := s.activations + 1 } := by
  simp [countdownTick, hm, hv]

/-- One countdown tick preserves timer cleanliness, and the measure
activations plus one-if-a-countdown-timer-is-armed never increases: a
completion trades the armed timer for the activation. -/
theorem countdownTick_clean_pot (s : AppState) (id : Nat) (h : CleanTimers s) :
    CleanTimers (countdownTick id s)
    ∧ (countdownTick id s).activations +
        (if hasLiveCd (countdownTick id s) then 1 else 0)
      ≤ s.activations + (if hasLiveCd s then 1 else 0) := by
  by_cases hmem : (id, TimerKind.countdown) ∈ s.live
  · by_cases hval : s.countdownValue ≤ 1
    · rw [countdownTick_done s id hmem hval]
      have hno : ∀ p ∈ s.countdownTimerRef.elim s.live
          (fun j => clearTimer j s.live), p.2 ≠ TimerKind.countdown :=
        noCd_clear_ref s h
      constructor
      · intro p hp hk
        exact absurd hk (hno p hp)
      · have h1 : hasLiveCd s := ⟨(id, TimerKind.countdown), hmem, rfl⟩
        have h2 : ¬ hasLiveCd ({ s with
            live := s.countdownTimerRef.elim s.live (fun j => clearTimer j s.live)
            showCountdown := false
            showLandoltTest := true
            countdownValue := 0
            activations := s.activations + 1 }) := by
          rintro ⟨p, hp, hk⟩
          exact hno p hp hk
        rw [if_pos h1, if_neg h2]
    · rw [countdownTick_dec s id hmem hval]
      constructor
      · intro p hp hk
        exact h p hp hk
      · exact Nat.le_refl _
  · rw [countdownTick_not_live s id hmem]
    exact ⟨h, Nat.le_refl _⟩

/-- Folding countdown ticks preserves cleanliness and never increases the
activation measure. -/
theorem ticksRun_clean_pot (l : List Nat) (s : AppState) (h : CleanTimers s) :
    CleanTimers (ticksRun l s)
    ∧ (ticksRun l s).activations + (if hasLiveCd (ticksRun l s) then 1 else 0)
      ≤ s.activations + (if hasLiveCd s then 1 else 0) := by
  induction l generalizing s with
  | nil => exact ⟨h, Nat.le_refl _⟩
  | cons a l ih =>
      have h1 := countdownTick_clean_pot s a h
      have h2 := ih (countdownTick a s) h1.1
      exact ⟨h2.1, le_trans h2.2 h1.2⟩

/-- With no armed countdown timer, countdown ticks are no-ops. -/
theorem ticksRun_noop (l : List Nat) (s : AppState)
    (h : ∀ p ∈ s.live, p.2 ≠ TimerKind.countdown) : ticksRun l s = s := by
  induction l with
  | nil => rfl
  | cons a l ih =>
      show ticksRun l (countdownTick a s) = s
      rw [countdownTick_not_live s a (fun hm => h _ hm rfl)]
      exact ih

/-- Two startCountdown invocations in immediate succession. -/
def cdDoubleStart (s : AppState) : AppState :=
  startCountdown (startCountdown s)

/-- The second countdown timer run to completion: five ticks of the timer
armed by the second start. -/
def cdFiveTicks (s : AppState) : AppState :=
  ticksRun (List.replicate 5 (s.nextTimer + 1)) (cdDoubleStart s)

section

set_option maxHeartbeats 1000000
set_option maxRecDepth 8192

/-- C6: starting the countdown twice in quick succession cancels the first
timer cleanly (its id is no longer armed), every possible sequence of
subsequent timer ticks produces at most one vision-test activation (never
two), and driving the surviving timer through its five ticks yields exactly
one activation and handoff (Landolt test shown), after which no countdown
timer is armed and every further tick is a no-op: the timer has
self-disarmed. -/
theorem claim_C6_double_countdown (s : AppState) (h : CleanTimers s) :
    (s.nextTimer, TimerKind.countdown) ∉ (cdDoubleStart s).live
    ∧ (∀ l : List Nat,
        (ticksRun l (cdDoubleStart s)).activations ≤ s.activations + 1)
    ∧ (cdFiveTicks s).activations = s.activations + 1
    ∧ (cdFiveTicks s).showLandoltTest = true
    ∧ (∀ p ∈ (cdFiveTicks s).live, p.2 ≠ TimerKind.countdown)
    ∧ (∀ l : List Nat, ticksRun l (cdFiveTicks s) = cdFiveTicks s) := by
  have hclean2 : CleanTimers (cdDoubleStart s) :=
    clean_startCountdown _ (clean_startCountdown _ h)
  have hmem2 : (s.nextTimer + 1, TimerKind.countdown) ∈ (cdDoubleStart s).live :=
    List.mem_cons_self _ _
  have e1 : countdownTick (s.nextTimer + 1) (cdDoubleStart s) =
      { cdDoubleStart s with countdownValue := 4 } := by
    rw [countdownTick_dec _ _ hmem2 (by show ¬ (5 : Nat) ≤ 1; decide)]
    rfl
  have hmem3 : (s.nextTimer + 1, TimerKind.countdown) ∈
      ({ cdDoubleStart s with countdownValue := 4 }).live := hmem2
  have e2 : countdownTick (s.nextTimer + 1)
        ({ cdDoubleStart s with countdownValue := 4 }) =
      { cdDoubleStart s with countdownValue := 3 } := by
    rw [countdownTick_dec _ _ hmem3 (by show ¬ (4 : Nat) ≤ 1; decide)]
    rfl
  have hmem4 : (s.nextTimer + 1, TimerKind.countdown) ∈
      ({ cdDoubleStart s with countdownValue := 3 }).live := hmem2
  have e3 : countdownTick (s.nextTimer + 1)
        ({ cdDoubleStart s with countdownValue := 3 }) =
      { cdDoubleStart s with countdownValue := 2 } := by
    rw [countdownTick_dec _ _ hmem4 (by show ¬ (3 : Nat) ≤ 1; decide)]
    rfl
  have hmem5 : (s.nextTimer + 1, TimerKind.countdown) ∈
      ({ cdDoubleStart s with countdownValue := 2 }).live := hmem2
  have e4 : countdownTick (s.nextTimer + 1)
        ({ cdDoubleStart s with countdownValue := 2 }) =
      { cdDoubleStart s with countdownValue := 1 } := by
    rw [countdownTick_dec _ _ hmem5 (by show ¬ (2 : Nat) ≤ 1; decide)]
    rfl
  have hmem6 : (s.nextTimer + 1, TimerKind.countdown) ∈
      ({ cdDoubleStart s with countdownValue := 1 }).live := hmem2
  have e5 : countdownTick (s.nextTimer + 1)
        ({ cdDoubleStart s with countdownValue := 1 }) =
      { cdDoubleStart s with
        live := clearTimer (s.nextTimer + 1) (cdDoubleStart s).live
        showCountdown := false
        showLandoltTest := true
        countdownValue := 0
        activations := s.activations + 1 } := by
    rw [countdownTick_done _ _ hmem6 (by show (1 : Nat) ≤ 1; decide)]
    rfl
  have hfive : cdFiveTicks s =
      { cdDoubleStart s with
        live := clearTimer (s.nextTimer + 1) (cdDoubleStart s).live
        showCountdown := false
        showLandoltTest := true
        countdownValue := 0
        activations := s.activations + 1 } := by
    show countdownTick (s.nextTimer + 1) (countdownTick (s.nextTimer + 1)
      (countdownTick (s.nextTimer + 1) (countdownTick (s.nextTimer + 1)
        (countdownTick (s.nextTimer + 1) (cdDoubleStart s))))) = _
    rw [e1, e2, e3, e4, e5]
  have hnoCd : ∀ p ∈ clearTimer (s.nextTimer + 1) (cdDoubleStart s).live,
      p.2 ≠ TimerKind.countdown := by
    intro p hp
    exact noCd_clear_ref (cdDoubleStart s) hclean2 p hp
  refine ⟨?_, ?_, ?_, ?_, ?_, ?_⟩
  · intro hmem
    have hsplit : (s.nextTimer, TimerKind.countdown) ∈
        ((s.nextTimer + 1, TimerKind.countdown) ::
          clearTimer s.nextTimer
            (stopMeasuringDistance (startCountdown s)).live : List (Nat × TimerKind)) :=
      hmem
    rcases List.mem_cons.1 hsplit with hh | ht
    · have : s.nextTimer = s.nextTimer + 1 := congrArg Prod.fst hh
      omega
    · exact not_mem_clearTimer_self _ _ _ ht
  · intro l
    have h2 := ticksRun_clean_pot l (cdDoubleStart s) hclean2
    have hcd2 : hasLiveCd (cdDoubleStart s) :=
      ⟨(s.nextTimer + 1, TimerKind.countdown), hmem2, rfl⟩
    have h3 : (ticksRun l (cdDoubleStart s)).activations +
        (if hasLiveCd (ticksRun l (cdDoubleStart s)) then 1 else 0)
        ≤ s.activations + 1 := by
      rw [if_pos hcd2] at h2
      exact h2.2
    calc (ticksRun l (cdDoubleStart s)).activations
        ≤ (ticksRun l (cdDoubleStart s)).activations +
            (if hasLiveCd (ticksRun l (cdDoubleStart s)) then 1 else 0) :=
          Nat.le_add_right _ _
      _ ≤ s.activations + 1 := h3
  · rw [hfive]
  · rw [hfive]
  · rw [hfive]; exact hnoCd
  · intro l
    rw [hfive]
    exact ticksRun_noop l _ hnoCd

end

/-- Witness for C6 at the initial state. -/
theorem claim_C6_double_countdown_witness :
    CleanTimers (initialAppState 0)
    ∧ (cdFiveTicks (initialAppState 0)).activations =
        (initialAppState 0).activations + 1
    ∧ (cdFiveTicks (initialAppState 0)).showLandoltTest = true :=
  ⟨by unfold CleanTimers; decide,
    (claim_C6_double_countdown (initialAppState 0)
      (by unfold CleanTimers; decide)).2.2.1,
    (claim_C6_double_countdown (initialAppState 0)
      (by unfold CleanTimers; decide)).2.2.2.1⟩
